import Mathlib

/-!
Verification of the natural-language specification of the `gestor-financeiro-ia`
repository against a shallow embedding of its Python sources.

Each Python function relevant to the claims is translated into an executable
Lean definition.  Python runtime failures (AttributeError, ValueError,
TypeError) are made explicit with `Except PyErr`.  Machine-level aspects that
the claims do not touch (uuid generation, the database, the HTTP layer) are
modelled as explicit parameters or state.
-/

namespace GestorFin

/-- Python runtime errors that the embedded code can raise.
`categoryNotFound` models the repository's `CategoryNotFoundException`. -/
inductive PyErr where
  | attributeError
  | valueError (msg : String)
  | typeError
  | categoryNotFound (msg : String)
  deriving Repr, DecidableEq

/-- Python `str(e)` on a caught exception.  For `ValueError` and
`CategoryNotFoundException` this is the constructor argument; for the other
two we use an abbreviation of CPython's wording (the claims never inspect
those texts). -/
def pyStr : PyErr → String
  | .attributeError => "type object datetime has no attribute timedelta"
  | .valueError m => m
  | .typeError => "unsupported operand types"
  | .categoryNotFound m => m

/-- Python `str.lower()` on one character (ASCII plus the Latin-1 uppercase
block U+00C0..U+00DE, excluding the multiplication sign). -/
def pyLowerChar (c : Char) : Char :=
  if 'A' ≤ c && c ≤ 'Z' then Char.ofNat (c.toNat + 32)
  else if 'À' ≤ c && c ≤ 'Þ' && c != '×' then Char.ofNat (c.toNat + 32)
  else c

/-- Python `str.lower()`. -/
def strLower (s : String) : String := ⟨s.data.map pyLowerChar⟩

/-- Model of a Python `datetime.datetime` value (naive, microsecond precision). -/
structure PyDateTime where
  year : Nat
  month : Nat
  day : Nat
  hour : Nat
  minute : Nat
  second : Nat
  usec : Nat
  deriving Repr, DecidableEq

/-- Shorthand constructor for concrete datetimes. -/
def pyDT (y m d h mi s us : Nat) : PyDateTime :=
  { year := y, month := m, day := d, hour := h, minute := mi, second := s, usec := us }

/-- Gregorian leap-year test (as in `calendar`/`datetime`). -/
def isLeapYear (y : Nat) : Bool :=
  (y % 4 == 0 && y % 100 != 0) || y % 400 == 0

/-- Number of days of month `m` of year `y` in the Gregorian calendar. -/
def daysInMonth (y m : Nat) : Nat :=
  if m == 2 then (if isLeapYear y then 29 else 28)
  else if m == 4 || m == 6 || m == 9 || m == 11 then 30
  else 31

/-- Order-preserving encoding of a (valid) datetime into a single natural
number; Python compares datetimes field by field, which on valid field ranges
agrees with comparing these encodings. -/
def PyDateTime.key (d : PyDateTime) : Nat :=
  ((((((d.year * 13 + d.month) * 32 + d.day) * 24 + d.hour) * 60 +
      d.minute) * 60 + d.second)) * 1000000 + d.usec

/-- Python `a <= b` on datetimes. -/
def dtLe (a b : PyDateTime) : Bool := Nat.ble a.key b.key

/-- Python `a < b` on datetimes. -/
def dtLt (a b : PyDateTime) : Bool := Nat.blt a.key b.key

/-- Python `datetime(...)` constructor validation: raises ValueError when the
day does not exist in the target month (or a field is out of range). -/
def mkDateTime (y m d h mi s us : Nat) : Except PyErr PyDateTime :=
  if 1 ≤ y && y ≤ 9999 && 1 ≤ m && m ≤ 12 && 1 ≤ d && Nat.ble d (daysInMonth y m)
      && h < 24 && mi < 60 && s < 60 && us < 1000000 then
    .ok (pyDT y m d h mi s us)
  else
    .error (.valueError "day is out of range for month")

/-- Python `dt.replace(day := d)`: revalidates the resulting date. -/
def dtReplaceDay (dt : PyDateTime) (d : Nat) : Except PyErr PyDateTime :=
  mkDateTime dt.year dt.month d dt.hour dt.minute dt.second dt.usec

/-- Days since 1970-01-01 of a Gregorian date (Hinnant's civil-from-days
algorithm); all intermediate divisions are on nonnegative values. -/
def daysFromCivil (y m d : Nat) : Int :=
  let yi : Int := if m ≤ 2 then (y : Int) - 1 else (y : Int)
  let era : Int := (if 0 ≤ yi then yi else yi - 399) / 400
  let yoe : Int := yi - era * 400
  let mp : Int := if 2 < m then (m : Int) - 3 else (m : Int) + 9
  let doy : Int := (153 * mp + 2) / 5 + (d : Int) - 1
  let doe : Int := yoe * 365 + yoe / 4 - yoe / 100 + doy
  era * 146097 + doe - 719468

/-- Python `datetime.weekday()`: Monday = 0 … Sunday = 6
(1970-01-01 was a Thursday, weekday 3). -/
def pyWeekday (dt : PyDateTime) : Nat :=
  ((daysFromCivil dt.year dt.month dt.day + 3) % 7).toNat

/-! ## `src/domain/value_objects/recurrence.py` -/

/-- `RecurrenceType` enumeration of `recurrence.py`. -/
inductive RecurrenceType where
  | daily | weekly | biweekly | monthly | bimonthly | quarterly | semiannual | annual
  deriving Repr, DecidableEq

/-- The `Recurrence` frozen dataclass of `recurrence.py`. -/
structure Recurrence where
  typ : RecurrenceType
  startDate : PyDateTime
  endDate : Option PyDateTime
  dayOfMonth : Option Nat
  dayOfWeek : Option Nat
  occurrences : Option Int
  deriving Repr, DecidableEq

/-- `Recurrence.__post_init__`: derives `day_of_month` from the start date for
monthly-or-coarser types, and `day_of_week` for WEEKLY only (note: not for
BIWEEKLY, exactly as in the source). -/
def mkRecurrence (typ : RecurrenceType) (startDate : PyDateTime)
    (endDate : Option PyDateTime := none) (dayOfMonth : Option Nat := none)
    (dayOfWeek : Option Nat := none) (occurrences : Option Int := none) : Recurrence :=
  let dom :=
    match typ, dayOfMonth with
    | .monthly, none | .bimonthly, none | .quarterly, none
    | .semiannual, none | .annual, none => some startDate.day
    | _, d => d
  let dow :=
    match typ, dayOfWeek with
    | .weekly, none => some (pyWeekday startDate)
    | _, d => d
  { typ := typ, startDate := startDate, endDate := endDate,
    dayOfMonth := dom, dayOfWeek := dow, occurrences := occurrences }

/-- `Recurrence._get_last_day_of_month` (recurrence.py lines 144-153).  The
source evaluates `datetime.timedelta(days=1)` — but the module only imports the
class `datetime` (`from datetime import datetime, date`), and the class
`datetime.datetime` has no attribute `timedelta`, so every call raises
`AttributeError` before the subtraction can be performed. -/
def recLastDayOfMonth (_year _month : Nat) : Except PyErr Nat :=
  .error .attributeError

/-- `while month > 12: month -= 12; year += 1` loop of `_get_next_month_date`,
with explicit fuel (the fuel always suffices since each step shrinks `m`). -/
def normalizeYearMonth : Nat → Nat → Nat → Nat × Nat
  | 0, y, m => (y, m)
  | fuel + 1, y, m => if 12 < m then normalizeYearMonth fuel (y + 1) (m - 12) else (y, m)

/-- `Recurrence._get_next_month_date` (recurrence.py lines 126-142): advance
`months` months, then `target_day = min(self.day_of_month, self._get_last_day_of_month(...))`
— evaluating `_get_last_day_of_month` raises AttributeError (see
`recLastDayOfMonth`).  `day_of_month` is accessed only after that call is
evaluated as the second `min` argument is evaluated first in source order:
`min(self.day_of_month, self._get_last_day_of_month(year, month))` evaluates
`self.day_of_month` (an attribute read, never failing) and then the helper. -/
def getNextMonthDate (rec : Recurrence) (ref : PyDateTime) (months : Nat) :
    Except PyErr PyDateTime := do
  let (year, month) := normalizeYearMonth (ref.month + months) ref.year (ref.month + months)
  let lastDay ← recLastDayOfMonth year month
  let targetDay := min (rec.dayOfMonth.getD 0) lastDay
  mkDateTime year month targetDay rec.startDate.hour rec.startDate.minute 0 0

/-- `Recurrence.get_next_occurrence` (recurrence.py lines 45-124), translated
branch by branch.

* termination test: `(end_date and ref > end_date) or (occurrences is not None and occurrences <= 0)`;
* DAILY: `ref.replace(hour=start.hour, minute=start.minute, second=0, microsecond=0)`,
  then, when that is `<= ref`, `replace(day=day+1)` — which raises ValueError on
  the last day of a month;
* WEEKLY/BIWEEKLY: `days_ahead = self.day_of_week - ref.weekday()` (TypeError if
  `day_of_week` is None, which `__post_init__` leaves unset for BIWEEKLY), then
  `... + datetime.timedelta(days=days_ahead)` — AttributeError, because only the
  `datetime` class is imported;
* MONTHLY/BIMONTHLY/QUARTERLY/SEMIANNUAL: `_get_next_month_date` (AttributeError
  via `_get_last_day_of_month`);
* ANNUAL: evaluates `min(self.day_of_month, self._get_last_day_of_month(...))`
  — AttributeError;
* final check: `if end_date and next_date > end_date: return None`. -/
def getNextOccurrence (rec : Recurrence) (ref : PyDateTime) :
    Except PyErr (Option PyDateTime) := do
  let pastEnd := match rec.endDate with
    | some e => dtLt e ref
    | none => false
  let exhausted := match rec.occurrences with
    | some o => decide (o ≤ 0)
    | none => false
  if pastEnd || exhausted then
    return none
  let next ← (match rec.typ with
    | .daily =>
        let nd : PyDateTime :=
          { ref with hour := rec.startDate.hour, minute := rec.startDate.minute,
                     second := 0, usec := 0 }
        if dtLe nd ref then dtReplaceDay nd (nd.day + 1) else .ok nd
    | .weekly =>
        match rec.dayOfWeek with
        | none => .error .typeError
        | some _ => .error .attributeError
    | .biweekly =>
        match rec.dayOfWeek with
        | none => .error .typeError
        | some _ => .error .attributeError
    | .monthly => getNextMonthDate rec ref 1
    | .bimonthly => getNextMonthDate rec ref 2
    | .quarterly => getNextMonthDate rec ref 3
    | .semiannual => getNextMonthDate rec ref 6
    | .annual => .error .attributeError)
  match rec.endDate with
  | some e => if dtLt e next then return none else return (some next)
  | none => return (some next)

/-- A monthly recurrence created from start date 2025-01-31 (so
`day_of_month = 31` by `__post_init__`). -/
def recMonthlyJan31 : Recurrence :=
  mkRecurrence .monthly (pyDT 2025 1 31 0 0 0 0)

/-- A daily recurrence starting 2025-01-01 at midnight. -/
def recDailyJan1 : Recurrence :=
  mkRecurrence .daily (pyDT 2025 1 1 0 0 0 0)

/-! ## `src/application/usecases/transaction_usecases.py`

Amounts are modelled as rationals (the `Money` value object wraps a
two-decimal `Decimal`; no claim depends on its rounding, so `Money(x)` is
passed through).  The transaction/category repositories are external
collaborators: the category repository is a parameter of the environment and
the transaction repository is an explicit store of appended transactions.
`uuid4()` is modelled by a counter-backed supply in the store. -/

/-- The `'frequency'/'end_date'/'occurrences'` dict handed to
`add_transaction`'s `recurrence` parameter. -/
structure RecurrenceDict where
  frequency : Option String
  endDate : Option PyDateTime
  occurrences : Option Int
  deriving Repr, DecidableEq

/-- The `'total'/'current'/'reference_id'` dict handed to `add_transaction`'s
`installment_info` parameter (keys may be absent). -/
structure InstallmentArg where
  total : Option Int
  current : Option Int
  referenceId : Option String
  deriving Repr, DecidableEq

/-- The processed installment info carried by a stored transaction. -/
structure InstallmentRec where
  total : Int
  current : Int
  referenceId : String
  deriving Repr, DecidableEq

/-- The `Transaction` entity (fields not touched by any claim — ids,
`created_at`, due/paid bookkeeping — are omitted from the model). -/
structure Transaction where
  typ : String
  amount : Rat
  category : String
  description : String
  date : PyDateTime
  priority : Option String
  recurrence : Option Recurrence
  installment : Option InstallmentRec
  tags : List String
  deriving Repr, DecidableEq

/-- External collaborators of the use cases: the clock and the category
repository (`get_by_name` respectively `get_all(type)[0].name`). -/
structure Env where
  now : PyDateTime
  catExists : String → Bool
  firstCatOfType : String → Option String

/-- The transaction repository plus the uuid supply. -/
structure Store where
  nextId : Nat
  transactions : List Transaction
  deriving Repr, DecidableEq

/-- `str(uuid4())`, modelled as a counter-backed supply. -/
def freshUuid (st : Store) : String × Store :=
  ("uuid-" ++ toString st.nextId, { st with nextId := st.nextId + 1 })

/-- `Recurrence.from_string` (recurrence.py lines 181-207): parses the
lower-cased frequency into a `RecurrenceType` or raises ValueError (quotes of
the source's message are elided). -/
def recurrenceFromString (frequency : String) (startDate : PyDateTime)
    (endDate : Option PyDateTime) (occurrences : Option Int) :
    Except PyErr Recurrence :=
  let f := strLower frequency
  let typ : Option RecurrenceType :=
    if f == "diária" then some .daily
    else if f == "semanal" then some .weekly
    else if f == "quinzenal" then some .biweekly
    else if f == "mensal" then some .monthly
    else if f == "bimestral" then some .bimonthly
    else if f == "trimestral" then some .quarterly
    else if f == "semestral" then some .semiannual
    else if f == "anual" then some .annual
    else none
  match typ with
  | some t => .ok (mkRecurrence t startDate endDate none none occurrences)
  | none => .error (.valueError ("Frequência inválida: " ++ frequency))

/-- `Transaction.create` (transaction.py lines 31-105): validates the type and
the priority (messages with the source's quotes elided), defaults the date to
`datetime.now()`. -/
def transactionCreate (env : Env) (typ : String) (amount : Rat)
    (category description : String) (date : Option PyDateTime)
    (priority : Option String) (recurrence : Option Recurrence)
    (installment : Option InstallmentRec) (tags : Option (List String)) :
    Except PyErr Transaction :=
  if typ != "income" && typ != "expense" then
    .error (.valueError "O tipo deve ser income ou expense")
  else if (match priority with
           | some p => p != "alta" && p != "média" && p != "baixa"
           | none => false) then
    .error (.valueError "A prioridade deve ser alta, média ou baixa")
  else
    .ok { typ := typ, amount := amount, category := category,
          description := description, date := date.getD env.now,
          priority := priority, recurrence := recurrence,
          installment := installment, tags := tags.getD [] }

/-- `TransactionUseCases._get_last_day_of_month` (transaction_usecases.py
lines 190-200).  Like its twin in `recurrence.py`, the body evaluates
`datetime.timedelta(days=1)` while only the `datetime` class is imported
(`from datetime import datetime`), so every call raises AttributeError. -/
def usecasesLastDayOfMonth (_year _month : Nat) : Except PyErr Nat :=
  .error .attributeError

/-- Body of the `for i in range(1, total_installments)` loop of
`_create_remaining_installments` (transaction_usecases.py lines 155-188):
computes the month-advanced clamped date, builds installment `i+1` and appends
it to the repository.  Exceptions propagate but already-appended transactions
remain in the store. -/
def remainingInstallmentBody (env : Env) (orig : Transaction) (total : Int)
    (refId : String) (i : Nat) (st : Store) : Except PyErr Unit × Store :=
  let y := orig.date.year + (orig.date.month + i - 1) / 12
  let m := (orig.date.month + i - 1) % 12 + 1
  match usecasesLastDayOfMonth y m with
  | .error e => (.error e, st)
  | .ok lastDay =>
    match mkDateTime y m (min orig.date.day lastDay)
        orig.date.hour orig.date.minute orig.date.second 0 with
    | .error e => (.error e, st)
    | .ok instDate =>
      match transactionCreate env orig.typ orig.amount orig.category
          (orig.description ++ " (" ++ toString (i + 1) ++ "/" ++ toString total ++ ")")
          (some instDate) orig.priority none
          (some { total := total, current := (i : Int) + 1, referenceId := refId })
          (some orig.tags) with
      | .error e => (.error e, st)
      | .ok tx => (.ok (), { st with transactions := st.transactions ++ [tx] })

/-- Runs `remainingInstallmentBody` for `i = start, start+1, …` (`count`
iterations), stopping at the first exception. -/
def remainingInstallmentLoop (env : Env) (orig : Transaction) (total : Int)
    (refId : String) : Nat → Nat → Store → Except PyErr Unit × Store
  | 0, _, st => (.ok (), st)
  | count + 1, i, st =>
    match remainingInstallmentBody env orig total refId i st with
    | (.error e, st2) => (.error e, st2)
    | (.ok _, st2) => remainingInstallmentLoop env orig total refId count (i + 1) st2

/-- `TransactionUseCases._create_remaining_installments` (lines 136-188). -/
def createRemainingInstallments (env : Env) (orig : Transaction) (total : Int)
    (refId : String) (st : Store) : Except PyErr Unit × Store :=
  remainingInstallmentLoop env orig total refId (total.toNat - 1) 1 st

/-- `TransactionUseCases.add_transaction` (lines 30-134): category fallback,
recurrence parsing, installment validation (with reference-id generation),
`Transaction.create`, repository append, and expansion of the remaining
installments when `current == 1 < total`.  Repository effects performed before
an exception persist in the returned store. -/
def addTransaction (env : Env) (st : Store) (typ : String) (amount : Rat)
    (category description : String) (date : Option PyDateTime)
    (priority : Option String) (recurrenceArg : Option RecurrenceDict)
    (installmentArg : Option InstallmentArg) (tags : Option (List String)) :
    Except PyErr Transaction × Store :=
  let categoryRes : Except PyErr String :=
    if env.catExists category then .ok category
    else match env.firstCatOfType typ with
      | some name => .ok name
      | none => .error (.categoryNotFound ("Categoria " ++ category ++
          " não encontrada e não há categorias do tipo " ++ typ))
  match categoryRes with
  | .error e => (.error e, st)
  | .ok category =>
    let recurrenceRes : Except PyErr (Option Recurrence) :=
      match recurrenceArg with
      | none => .ok none
      | some r =>
        match recurrenceFromString (r.frequency.getD "mensal") (date.getD env.now)
            r.endDate r.occurrences with
        | .error e => .error e
        | .ok rec0 => .ok (some rec0)
    match recurrenceRes with
    | .error e => (.error e, st)
    | .ok recurrenceObj =>
      let processedRes : Except PyErr (Option InstallmentRec × Store) :=
        match installmentArg with
        | none => .ok (none, st)
        | some info =>
          let total := info.total.getD 1
          let current := info.current.getD 1
          if total < 1 then
            .error (.valueError "O número total de parcelas deve ser pelo menos 1")
          else if current < 1 || total < current then
            .error (.valueError ("O número da parcela atual deve estar entre 1 e " ++
              toString total))
          else
            match info.referenceId with
            | some rid => .ok (some { total := total, current := current, referenceId := rid }, st)
            | none =>
              let (rid, st2) := freshUuid st
              .ok (some { total := total, current := current, referenceId := rid }, st2)
      match processedRes with
      | .error e => (.error e, st)
      | .ok (processed, st) =>
        match transactionCreate env typ amount category description date priority
            recurrenceObj processed tags with
        | .error e => (.error e, st)
        | .ok tx =>
          let st := { st with transactions := st.transactions ++ [tx] }
          match processed with
          | some p =>
            if p.current == 1 && 1 < p.total then
              match createRemainingInstallments env tx p.total p.referenceId st with
              | (.error e, st2) => (.error e, st2)
              | (.ok _, st2) => (.ok tx, st2)
            else (.ok tx, st)
          | none => (.ok tx, st)

/-- `TransactionUseCases.add_installment_transaction` (lines 261-309):
validates `total_installments >= 1` before any other effect, then creates the
first installment (description suffixed `(1/total)`) through
`add_transaction`, which in turn expands the remaining installments. -/
def addInstallmentTransaction (env : Env) (st : Store) (typ : String)
    (amount : Rat) (category description : String) (totalInstallments : Int)
    (startDate : Option PyDateTime) (priority : Option String)
    (tags : Option (List String)) : Except PyErr Transaction × Store :=
  if totalInstallments < 1 then
    (.error (.valueError "O número total de parcelas deve ser pelo menos 1"), st)
  else
    addTransaction env st typ amount category
      (description ++ " (1/" ++ toString totalInstallments ++ ")")
      startDate priority none
      (some { total := some totalInstallments, current := some 1, referenceId := none })
      tags

/-! ## `src/application/usecases/nlp_usecases.py` — installment handler -/

/-- The entity bag produced by the extractor / carried through confirmations
(a Python dict; only the keys read by the claim-relevant code are modelled,
each as an optional field). -/
structure Entities where
  amount : Option Rat := none
  category : Option String := none
  description : Option String := none
  date : Option PyDateTime := none
  priority : Option String := none
  tags : Option (List String) := none
  typ : Option String := none
  installmentInfo : Option InstallmentArg := none
  recurrence : Option RecurrenceDict := none
  totalInstallments : Option Int := none
  suggestedCategories : Option (List String) := none
  transactionId : Option String := none
  startDate : Option PyDateTime := none
  endDate : Option PyDateTime := none
  frequency : Option String := none
  updateFieldPresent : Bool := false
  deriving Repr, DecidableEq

/-- A handler result dict: `{"status": ..., "message": ...}`. -/
structure Response where
  status : String
  message : String
  deriving Repr, DecidableEq

/-- `NLPUseCases._handle_add_installment` (nlp_usecases.py lines 217-246):
resolves the installment count (default 2), delegates to
`add_installment_transaction` inside `try/except`, and turns any exception
into a `{"status": "error", "message": str(e)}` result.  The success message
abbreviates the source's two-decimal money formatting. -/
def handleAddInstallment (env : Env) (st : Store) (entities : Entities) :
    Response × Store :=
  let info := entities.installmentInfo.getD
    { total := some 2, current := some 1, referenceId := none }
  let total := info.total.getD 2
  match addInstallmentTransaction env st "expense" (entities.amount.getD 0)
      (entities.category.getD "Outros") (entities.description.getD "Despesa parcelada")
      total entities.date entities.priority entities.tags with
  | (.ok tx, st2) =>
    ({ status := "success",
       message := "Despesa parcelada em " ++ toString total ++ "x de R$ " ++
         toString tx.amount ++ " em " ++ tx.category ++ " registrada com sucesso!" }, st2)
  | (.error e, st2) => ({ status := "error", message := pyStr e }, st2)

/-- An environment in which the referenced category exists (the category
repository is external; C2/C8 quantify over it or fix it concretely). -/
def envAllCats : Env :=
  { now := pyDT 2025 1 15 12 0 0 0, catExists := fun _ => true,
    firstCatOfType := fun _ => none }

/-- The empty repository. -/
def store0 : Store := { nextId := 0, transactions := [] }

/-! ## `src/infrastructure/nlp/intent_recognizer_improved.py` — the Normalizer

Note: in the source, the body of `_preprocess_text` (lines 377-455) is written
at the same indentation as its `def` line, which is an IndentationError — the
module cannot even be imported.  The definitions below embed the function as
written (i.e. with the body the source text spells out). -/

/-- Python `\s` / `str.strip()` whitespace (ASCII range). -/
def isPySpace (c : Char) : Bool :=
  c == ' ' || c == '\t' || c == '\n' || c == '\r' || c == '\x0b' || c == '\x0c'

/-- Python `str.strip()`. -/
def pyStripChars (cs : List Char) : List Char :=
  ((cs.dropWhile isPySpace).reverse.dropWhile isPySpace).reverse

/-- `re.sub(r'\s+', ' ', ·)`: each maximal whitespace run becomes one space. -/
def collapseWsGo : List Char → Bool → List Char
  | [], _ => []
  | c :: rest, inRun =>
    if isPySpace c then
      (if inRun then collapseWsGo rest true else ' ' :: collapseWsGo rest true)
    else c :: collapseWsGo rest false

/-- `re.sub(r'\s+', ' ', ·)` over a char list. -/
def collapseWs (cs : List Char) : List Char := collapseWsGo cs false

/-- Unicode NFD decomposition followed by removal of `Mn` marks, restricted to
the Latin letters that occur in this code base; all other characters are
NFD-stable singletons here. -/
def stripAccent (c : Char) : Char :=
  match c with
  | 'á' | 'à' | 'â' | 'ã' | 'ä' => 'a'
  | 'é' | 'è' | 'ê' | 'ë' => 'e'
  | 'í' | 'ì' | 'î' | 'ï' => 'i'
  | 'ó' | 'ò' | 'ô' | 'õ' | 'ö' => 'o'
  | 'ú' | 'ù' | 'û' | 'ü' => 'u'
  | 'ç' => 'c'
  | 'Á' | 'À' | 'Â' | 'Ã' | 'Ä' => 'A'
  | 'É' | 'È' | 'Ê' | 'Ë' => 'E'
  | 'Í' | 'Ì' | 'Î' | 'Ï' => 'I'
  | 'Ó' | 'Ò' | 'Ô' | 'Õ' | 'Ö' => 'O'
  | 'Ú' | 'Ù' | 'Û' | 'Ü' => 'U'
  | 'Ç' => 'C'
  | _ => c

/-- `ImprovedIntentRecognizer._normalize_text` (lines 343-352): collapse
whitespace on the stripped text, lower-case, strip accents. -/
def normalizeTextImp (cs : List Char) : List Char :=
  ((collapseWs (pyStripChars cs)).map pyLowerChar).map stripAccent

/-- Python `str.split()` (no separator): whitespace runs, empties dropped. -/
def splitWsGo : List Char → List Char → List (List Char)
  | [], acc => if acc.isEmpty then [] else [acc.reverse]
  | c :: rest, acc =>
    if isPySpace c then
      (if acc.isEmpty then splitWsGo rest [] else acc.reverse :: splitWsGo rest [])
    else splitWsGo rest (c :: acc)

/-- Python `str.split()`. -/
def splitWs (cs : List Char) : List (List Char) := splitWsGo cs []

/-- `' '.join`. -/
def joinSpace (ws : List (List Char)) : List Char :=
  (ws.intersperse [' ']).flatten

/-- `self.common_misspellings` (lines 36-76), in insertion order (the key
"sálario" is written twice in the source with the same value; a dict keeps a
single entry). -/
def commonMisspellings : List (String × String) :=
  [("adcionar", "adicionar"), ("dispesa", "despesa"), ("despeza", "despesa"),
   ("receta", "receita"), ("sálario", "salário"), ("transferencia", "transferência"),
   ("registar", "registrar"), ("lançar", "registrar"), ("lancar", "registrar"),
   ("colocar", "registrar"), ("apagar", "excluir"), ("deletar", "excluir"),
   ("remover", "excluir"), ("saldo", "balanço"), ("dinhero", "dinheiro"),
   ("calculo", "cálculo"), ("gastos", "despesas"), ("ganhos", "receitas"),
   ("grana", "dinheiro"), ("gasto", "despesa"), ("ganhei", "recebi"),
   ("gastei", "paguei"), ("paguei", "gastei"),
   ("expence", "expense"), ("expanse", "expense"), ("exspense", "expense"),
   ("recieve", "receive"), ("recieved", "received"), ("recept", "receipt"),
   ("ballance", "balance"), ("mony", "money"), ("chek", "check"),
   ("cheque", "check"), ("calculate", "calculate"), ("salery", "salary"),
   ("pament", "payment")]

/-- `ImprovedIntentRecognizer._correct_misspellings` (lines 354-367): split on
whitespace, replace each word whose normalized form is a key of the table,
rejoin with single spaces. -/
def correctMisspellings (cs : List Char) : List Char :=
  joinSpace ((splitWs cs).map fun w =>
    match commonMisspellings.find? (fun p => p.1.data == normalizeTextImp w) with
    | some p => p.2.data
    | none => w)

/-- Python `\w` word characters as far as this code base needs them. -/
def isWordChar (c : Char) : Bool :=
  c.isAlpha || c.isDigit || c == '_' || stripAccent c != c

/-- `re.sub(r"\b(\d+),(\d+)", r"\1.\2", ·)`: left-to-right non-overlapping
scan; a match needs a word boundary before the first digit, a maximal digit
run, a comma, and at least one digit (backtracking to a shorter `\d+` can
never succeed because a digit would still follow, so the greedy run is the
only candidate). -/
def commaFixGo : Nat → Option Char → List Char → List Char
  | 0, _, cs => cs
  | _ + 1, _, [] => []
  | fuel + 1, prev, c :: rest =>
    if (match prev with | some p => !isWordChar p | none => true) && c.isDigit then
      match rest.dropWhile Char.isDigit with
      | ',' :: r2 =>
        let d2 := r2.takeWhile Char.isDigit
        if d2.isEmpty then c :: commaFixGo fuel (some c) rest
        else
          (c :: rest.takeWhile Char.isDigit) ++ '.' :: d2 ++
            commaFixGo fuel (some (d2.getLastD '0')) (r2.dropWhile Char.isDigit)
      | _ => c :: commaFixGo fuel (some c) rest
    else c :: commaFixGo fuel (some c) rest

/-- First rule of `self.common_errors`. -/
def commaFix (cs : List Char) : List Char := commaFixGo cs.length none cs

/-- Tail `\s+mil\s+` of the second `common_errors` rule: at least one space,
the literal `mil`, at least one space; returns the remainder. -/
def matchMilTail (rest : List Char) : Option (List Char) :=
  let ws1 := rest.takeWhile isPySpace
  if ws1.isEmpty then none
  else match rest.dropWhile isPySpace with
    | 'm' :: 'i' :: 'l' :: r2 =>
      let ws2 := r2.takeWhile isPySpace
      if ws2.isEmpty then none else some (r2.dropWhile isPySpace)
    | _ => none

/-- Match `u?m\s+mil\s+` at the current position, returning the remainder
(trying the `u` branch first, as the regex engine does). -/
def matchMil1 : List Char → Option (List Char)
  | 'u' :: 'm' :: rest => matchMilTail rest
  | 'm' :: rest => matchMilTail rest
  | _ => none

/-- `re.sub(r"u?m\s+mil\s+", "1000", ·)` (second rule of `common_errors`). -/
def milFix1Go : Nat → List Char → List Char
  | 0, cs => cs
  | _ + 1, [] => []
  | fuel + 1, c :: rest =>
    match matchMil1 (c :: rest) with
    | some remainder => '1' :: '0' :: '0' :: '0' :: milFix1Go fuel remainder
    | none => c :: milFix1Go fuel rest

/-- Second rule of `common_errors`. -/
def milFix1 (cs : List Char) : List Char := milFix1Go cs.length cs

/-- Match `(\d+)\s+mil\s+` at the current position (the greedy digit run is
the only viable capture, see `commaFixGo`). -/
def matchMil2 : List Char → Option (List Char)
  | c :: rest => if c.isDigit then matchMilTail (rest.dropWhile Char.isDigit) else none
  | [] => none

/-- `re.sub(r"(\d+)\s+mil\s+", r"\1000", ·)` (third rule of `common_errors`).
CPython parses the replacement template `\1000` as the octal escape `\100`
(the character `@`) followed by a literal `0`, so each match is replaced by
the two characters `@0` and the captured digits are dropped. -/
def milFix2Go : Nat → List Char → List Char
  | 0, cs => cs
  | _ + 1, [] => []
  | fuel + 1, c :: rest =>
    match matchMil2 (c :: rest) with
    | some remainder => '@' :: '0' :: milFix2Go fuel remainder
    | none => c :: milFix2Go fuel rest

/-- Third rule of `common_errors`. -/
def milFix2 (cs : List Char) : List Char := milFix2Go cs.length cs

/-- `ImprovedIntentRecognizer._apply_common_error_corrections` (lines
369-374): the three `common_errors` rules applied in dict order. -/
def applyCommonErrors (cs : List Char) : List Char :=
  milFix2 (milFix1 (commaFix cs))

/-- Is `pat` a prefix of `hay`? -/
def isPrefList : List Char → List Char → Bool
  | [], _ => true
  | _ :: _, [] => false
  | p :: ps, c :: cs => p == c && isPrefList ps cs

/-- Python `pat in hay` substring test. -/
def containsSub : List Char → List Char → Bool
  | [], pat => pat.isEmpty
  | c :: cs, pat => isPrefList pat (c :: cs) || containsSub cs pat

/-- The `pt-BR` phrase table of `_preprocess_text`'s `mappings` (lines
394-421), in insertion order (the recognizer's default language is pt-BR). -/
def mappingsImproved : List (String × String) :=
  [("todas as despesas", "listar despesas"), ("todos os gastos", "listar despesas"),
   ("todas as receitas", "listar receitas"), ("todos os ganhos", "listar receitas"),
   ("todas as transações", "listar transações"), ("todos os movimentos", "listar transações"),
   ("quanto gastei", "listar despesas"), ("quanto recebi", "listar receitas"),
   ("qual meu saldo", "saldo"), ("como estão minhas finanças", "saldo"),
   ("minhas despesas", "listar despesas"), ("meus gastos", "listar gastos"),
   ("minhas receitas", "listar receitas"), ("meus ganhos", "listar receitas"),
   ("despesas recorrentes", "listar despesas recorrentes"),
   ("assinaturas", "listar despesas recorrentes"),
   ("despesas fixas", "listar despesas recorrentes"),
   ("despesas mensais", "listar despesas recorrentes"),
   ("despesas parceladas", "listar despesas parceladas"),
   ("parcelas", "listar despesas parceladas"),
   ("prestações", "listar despesas parceladas"),
   ("comprei", "adicionar despesa"), ("gastei", "adicionar despesa"),
   ("paguei", "adicionar despesa"), ("recebi", "adicionar receita"),
   ("ganhei", "adicionar receita")]

/-- `ImprovedIntentRecognizer._preprocess_text` (lines 376-455, the
spec's Normalizer): misspelling correction, the `common_errors` rules, then a
scan of the phrase table against the normalized text — returning the first
matching phrase's replacement, or the (un-normalized!) corrected text. -/
def preprocessImproved (s : String) : String :=
  let corrected := applyCommonErrors (correctMisspellings s.data)
  let normalized := normalizeTextImp corrected
  match mappingsImproved.find? (fun p => containsSub normalized p.1.data) with
  | some p => p.2
  | none => ⟨corrected⟩

/-! ## `src/infrastructure/nlp/intent_recognizer.py` — the Intent Classifier

The intent patterns use only literals, alternation, `\s+` and the `^` anchor,
compiled with `re.IGNORECASE`; `re.findall` counts non-overlapping leftmost
matches.  They are embedded with a small regex interpreter whose alternation
order and greediness follow the Python engine's backtracking priority. -/

/-- Regex fragment: literal string, `\s+`, concatenation, ordered
alternation. -/
inductive Rx where
  | str (s : List Char)
  | ws
  | seq (a b : Rx)
  | alt (a b : Rx)
  deriving Repr

/-- Case-insensitive prefix test (the IGNORECASE flag). -/
def prefCI : List Char → List Char → Bool
  | [], _ => true
  | _ :: _, [] => false
  | p :: ps, c :: cs => (pyLowerChar p == pyLowerChar c) && prefCI ps cs

/-- Case-insensitive Python `in` substring test (for `re.search` of an
alternation of literals under IGNORECASE). -/
def containsSubCI : List Char → List Char → Bool
  | [], pat => pat.isEmpty
  | c :: cs, pat => prefCI pat (c :: cs) || containsSubCI cs pat

/-- All match lengths of a fragment at the head of `cs`, in backtracking
priority order (first = the length the engine commits to): a literal has one
length, `\s+` tries the greedy run first, `seq` expands left-to-right, `alt`
prefers its left branch. -/
def rxMatches : Rx → List Char → List Nat
  | .str s, cs => if prefCI s cs then [s.length] else []
  | .ws, cs =>
    let k := (cs.takeWhile isPySpace).length
    (List.range k).map (fun j => k - j)
  | .seq a b, cs =>
    (rxMatches a cs).flatMap (fun la => (rxMatches b (cs.drop la)).map (la + ·))
  | .alt a b, cs => rxMatches a cs ++ rxMatches b cs

/-- One top-level alternative of a pattern; `anchored` records a leading `^`
(matchable only at position 0, there being no MULTILINE flag). -/
structure RxBranch where
  anchored : Bool
  rx : Rx

/-- The engine's match at one position: the first branch (in pattern order)
with a match, committed to its highest-priority length. -/
def matchAt (branches : List RxBranch) (atStart : Bool) (cs : List Char) : Option Nat :=
  branches.findSome? (fun b =>
    if b.anchored && !atStart then none else (rxMatches b.rx cs).head?)

/-- `len(re.findall(pattern, text, re.IGNORECASE))`: scan left to right,
counting non-overlapping matches and resuming after each one (every branch of
every pattern below consumes at least one character; a zero-length match is
defensively skipped like a failure). -/
def findallGo (branches : List RxBranch) : Nat → Bool → List Char → Nat
  | 0, _, _ => 0
  | _ + 1, _, [] => 0
  | fuel + 1, atStart, c :: rest =>
    match matchAt branches atStart (c :: rest) with
    | some (l + 1) => 1 + findallGo branches fuel false ((c :: rest).drop (l + 1))
    | _ => findallGo branches fuel false rest

/-- `len(re.findall(pattern, text, re.IGNORECASE))`. -/
def findallCount (branches : List RxBranch) (cs : List Char) : Nat :=
  findallGo branches (cs.length + 1) true cs

/-- Alternation of a nonempty list of literal words, in order. -/
def altWords : String → List String → Rx
  | w, [] => .str w.data
  | w, w2 :: ws => .alt (.str w.data) (altWords w2 ws)

/-- `(a)\s+(b)`. -/
def seqWs2 (a b : Rx) : Rx := .seq a (.seq .ws b)

/-- `(a)\s+(b)\s+(c)`. -/
def seqWs3 (a b c : Rx) : Rx := .seq a (.seq .ws (.seq b (.seq .ws c)))

/-- `self.intent_patterns` (intent_recognizer.py lines 16-30), in insertion
order, each value compiled into its list of top-level alternatives. -/
def intentPatterns : List (String × List RxBranch) :=
  [("ADD_EXPENSE",
    [⟨true, seqWs2 (altWords "adicionar" ["registrar", "inserir", "nova", "novo", "cadastrar"])
        (altWords "despesa" ["gasto", "custo"])⟩]),
   ("ADD_INCOME",
    [⟨true, seqWs2 (altWords "adicionar" ["registrar", "inserir", "nova", "novo", "cadastrar"])
        (altWords "receita" ["renda", "ganho"])⟩]),
   ("ADD_RECURRING",
    [⟨true, seqWs3 (altWords "adicionar" ["registrar", "inserir", "nova", "novo", "cadastrar"])
        (altWords "despesa" ["gasto", "receita", "renda"])
        (altWords "recorrente" ["fixa", "mensal", "periód"])⟩]),
   ("ADD_INSTALLMENT",
    [⟨true, seqWs3 (altWords "adicionar" ["registrar", "inserir", "nova", "novo", "cadastrar"])
        (altWords "despesa" ["gasto"])
        (altWords "parcelad" ["em parcelas", "a prazo"])⟩]),
   ("LIST_TRANSACTIONS",
    [⟨true, seqWs2 (altWords "listar" ["mostrar", "exibir", "ver", "consultar", "todas", "todos"])
        (altWords "transações" ["despesas", "gastos", "receitas", "rendas"])⟩,
     ⟨false, seqWs2 (.str "quanto".data) (altWords "gastei" ["recebi", "ganhei"])⟩]),
   ("LIST_RECURRING",
    [⟨true, seqWs3 (altWords "listar" ["mostrar", "exibir", "ver", "consultar"])
        (altWords "despesas" ["gastos", "receitas", "rendas"])
        (altWords "recorrentes" ["fixas", "fixos", "mensais"])⟩]),
   ("LIST_INSTALLMENTS",
    [⟨true, seqWs3 (altWords "listar" ["mostrar", "exibir", "ver", "consultar"])
        (altWords "despesas" ["gastos"])
        (altWords "parcelad" ["parcelas", "a prazo"])⟩]),
   ("GET_BALANCE",
    [⟨true, .alt (.str "saldo".data) (.alt (.str "balanço".data)
        (.alt (seqWs2 (.str "quanto".data) (.str "tenho".data))
        (.alt (.str "resumo".data) (.alt (.str "situação".data)
        (.alt (.str "resultado".data) (.str "total".data))))))⟩,
     ⟨false, seqWs2 (.str "quanto".data) (altWords "gastei" ["recebi", "resta", "sobrou"])⟩]),
   ("DELETE_TRANSACTION",
    [⟨true, seqWs2 (altWords "excluir" ["apagar", "deletar", "remover"])
        (altWords "transação" ["despesa", "receita"])⟩]),
   ("UPDATE_TRANSACTION",
    [⟨true, seqWs2 (altWords "atualizar" ["editar", "modificar", "alterar", "mudar"])
        (altWords "transação" ["despesa", "receita"])⟩]),
   ("ADD_CATEGORY",
    [⟨true, seqWs2 (altWords "adicionar" ["nova", "novo", "criar"]) (.str "categoria".data)⟩]),
   ("LIST_CATEGORIES",
    [⟨true, seqWs2 (altWords "listar" ["mostrar", "exibir", "ver", "todas", "todos"])
        (.str "categorias".data)⟩]),
   ("HELP",
    [⟨true, .alt (.str "ajuda".data) (.alt (seqWs2 (.str "como".data) (.str "usar".data))
        (.alt (.seq (.str "o".data) (.seq .ws (.seq (.str "que".data) (.seq .ws
          (.seq (.str "posso".data) (.seq .ws (.str "fazer".data)))))))
        (.str "comandos".data)))⟩])]

/-- The phrase table of `IntentRecognizer._preprocess_text` (lines 103-125),
in insertion order (this recognizer has 21 entries, unlike the improved
one). -/
def mappingsClassifier : List (String × String) :=
  [("todas as despesas", "listar despesas"), ("todos os gastos", "listar despesas"),
   ("todas as receitas", "listar receitas"), ("todos os ganhos", "listar receitas"),
   ("todas as transações", "listar transações"), ("todos os movimentos", "listar transações"),
   ("quanto gastei", "listar despesas"), ("quanto recebi", "listar receitas"),
   ("qual meu saldo", "saldo"), ("como estão minhas finanças", "saldo"),
   ("minhas despesas", "listar despesas"), ("meus gastos", "listar gastos"),
   ("minhas receitas", "listar receitas"), ("meus ganhos", "listar receitas"),
   ("despesas recorrentes", "listar despesas recorrentes"),
   ("assinaturas", "listar despesas recorrentes"),
   ("despesas fixas", "listar despesas recorrentes"),
   ("despesas mensais", "listar despesas recorrentes"),
   ("despesas parceladas", "listar despesas parceladas"),
   ("parcelas", "listar despesas parceladas"),
   ("prestações", "listar despesas parceladas")]

/-- `IntentRecognizer._preprocess_text` (lines 97-131): strip, lower-case,
collapse whitespace, then return the first phrase-table replacement contained
in the normalized text, else the normalized text itself. -/
def preprocessClassifier (s : String) : List Char :=
  let normalized := collapseWs ((pyStripChars s.data).map pyLowerChar)
  match mappingsClassifier.find? (fun p => containsSub normalized p.1.data) with
  | some p => p.2.data
  | none => normalized

/-- The score dict of `_identify_intent` (lines 139-142):
`scores[intent] = len(re.findall(pattern, text, re.IGNORECASE))`, in the
pattern table's insertion order. -/
def intentScores (t : List Char) : List (String × Nat) :=
  intentPatterns.map (fun p => (p.1, findallCount p.2 t))

/-- `max(scores.items(), key=lambda x: x[1])[0]` (line 146): Python's `max`
replaces the running best only on a strictly greater key, so the first item
attaining the maximum wins; on an empty list (unreachable: the dict has 13
entries) we return UNKNOWN. -/
def pyMaxIntent : List (String × Nat) → String
  | [] => "UNKNOWN"
  | x :: xs => (xs.foldl (fun b q => if b.2 < q.2 then q else b) x).1

/-- `re.search` of the month heuristic (line 149): any of the twelve month
names or `mês`, case-insensitively. -/
def monthHeuristic (t : List Char) : Bool :=
  ["Janeiro", "Fevereiro", "Março", "Abril", "Maio", "Junho", "Julho",
   "Agosto", "Setembro", "Outubro", "Novembro", "Dezembro", "mês"].any
    (fun w => containsSubCI t w.data)

/-- `re.search(r'(gasto|despesa)', text, re.IGNORECASE)` (line 150). -/
def expenseHeuristic (t : List Char) : Bool :=
  containsSubCI t "gasto".data || containsSubCI t "despesa".data

/-- `"recorrente" in text or "fixa" in text or "mensal" in text` (line 155). -/
def recurringKw (t : List Char) : Bool :=
  containsSub t "recorrente".data || containsSub t "fixa".data || containsSub t "mensal".data

/-- `"adicionar" in text or "registrar" in text or "nova" in text`. -/
def addVerbKw (t : List Char) : Bool :=
  containsSub t "adicionar".data || containsSub t "registrar".data || containsSub t "nova".data

/-- `"listar" in text or "mostrar" in text or "exibir" in text`. -/
def listVerbKw (t : List Char) : Bool :=
  containsSub t "listar".data || containsSub t "mostrar".data || containsSub t "exibir".data

/-- `"parcela" in text or "a prazo" in text or "parcelado" in text or
"prestação" in text` (line 162). -/
def installmentKw (t : List Char) : Bool :=
  containsSub t "parcela".data || containsSub t "a prazo".data ||
  containsSub t "parcelado".data || containsSub t "prestação".data

/-- The zero-score fallback chain of `_identify_intent` (lines 148-169),
in the source's order (a keyword block whose verb tests both fail falls
through to the next block). -/
def zeroScoreFallback (t : List Char) : String :=
  if monthHeuristic t then
    (if expenseHeuristic t then "LIST_TRANSACTIONS" else "GET_BALANCE")
  else if recurringKw t && addVerbKw t then "ADD_RECURRING"
  else if recurringKw t && listVerbKw t then "LIST_RECURRING"
  else if installmentKw t && addVerbKw t then "ADD_INSTALLMENT"
  else if installmentKw t && listVerbKw t then "LIST_INSTALLMENTS"
  else "UNKNOWN"

/-- `IntentRecognizer._identify_intent` (lines 133-169). -/
def identifyIntent (text : String) : String :=
  let t := preprocessClassifier text
  let scores := intentScores t
  if scores.any (fun p => p.2 != 0) then pyMaxIntent scores
  else zeroScoreFallback t

/-- Claim-side selection rule: the first-declared intent whose score is
greater than or equal to every score (i.e. the strictly highest score wins
and ties go to the first-declared intent). -/
def specFirstMax (l : List (String × Nat)) : Option (String × Nat) :=
  l.find? (fun p => l.all (fun q => decide (q.2 ≤ p.2)))

/-- Claim-side secondary heuristics, in the claim's fixed priority order:
month name (or `mês`) plus an expense keyword routes to LIST_TRANSACTIONS and
otherwise to GET_BALANCE; recurring/fixed/monthly plus an add-verb to
ADD_RECURRING (a list-verb to LIST_RECURRING); an installment marker plus an
add-verb to ADD_INSTALLMENT (a list-verb to LIST_INSTALLMENTS); UNKNOWN only
when none of these fire. -/
def claimFallback (t : List Char) : String :=
  if monthHeuristic t then
    (if expenseHeuristic t then "LIST_TRANSACTIONS" else "GET_BALANCE")
  else if recurringKw t && addVerbKw t then "ADD_RECURRING"
  else if recurringKw t && listVerbKw t then "LIST_RECURRING"
  else if installmentKw t && addVerbKw t then "ADD_INSTALLMENT"
  else if installmentKw t && listVerbKw t then "LIST_INSTALLMENTS"
  else "UNKNOWN"

/-- The classifier as the claim words it: score every intent by its pattern's
match count; if any score is positive the first-declared intent with a
maximal score wins; otherwise the fixed-priority heuristics apply, with
UNKNOWN when nothing matches. -/
def specClassify (text : String) : String :=
  let t := preprocessClassifier text
  let scores := intentScores t
  if scores.any (fun p => p.2 != 0) then
    ((specFirstMax scores).map Prod.fst).getD "UNKNOWN"
  else claimFallback t

/-! ## `src/infrastructure/whatsapp/whatsapp_adapter.py` — confirmation flow

`_handle_confirmation_flow` merges a reply into the pending partial entities
stored in the session context and then calls
`self.nlp_usecases.process_command_with_entities(...)`.  In
`nlp_usecases.py`, `process_command_with_entities`,
`_determine_intent_from_entities` and `_process_intent` are defined at module
level (column 0, from line 930) — not inside `class NLPUseCases`, although the
comment above them says they should be — so that attribute lookup raises
AttributeError, which `process_message`'s `try/except` turns into the generic
error reply. -/

/-- Python `str.strip()`. -/
def pyStrip (s : String) : String := ⟨pyStripChars s.data⟩

/-- Validity of the digit part of a Python `int` literal: nonempty digits
with single underscores strictly between digits (the argument tracks whether
the previous character was a digit). -/
def pyIntDigitsOk : List Char → Bool → Bool
  | [], prevDigit => prevDigit
  | c :: rest, prevDigit =>
    if c.isDigit then pyIntDigitsOk rest true
    else if c == '_' then prevDigit && pyIntDigitsOk rest false
    else false

/-- Numeric value of a digit-and-underscore string. -/
def digitsToNat (cs : List Char) : Nat :=
  (cs.filter (· != '_')).foldl (fun n c => n * 10 + (c.toNat - 48)) 0

/-- Python `int(str)`: strip whitespace, optional sign, digits (underscores
allowed between digits); None models the ValueError. -/
def pyIntParse (s : String) : Option Int :=
  let cs := pyStripChars s.data
  match cs with
  | '+' :: ds => if pyIntDigitsOk ds false then some (digitsToNat ds) else none
  | '-' :: ds => if pyIntDigitsOk ds false then some (-(digitsToNat ds : Int)) else none
  | ds => if pyIntDigitsOk ds false then some (digitsToNat ds) else none

/-- `message_text.strip().replace(',', '.')` followed by
`re.sub(r'[^\d.]', '', ·)` (whatsapp_adapter.py lines 317-320). -/
def amountDigits (msg : String) : List Char :=
  ((pyStripChars msg.data).map (fun c => if c == ',' then '.' else c)).filter
    (fun c => c.isDigit || c == '.')

/-- Python `float(·)` on a string made only of digits and dots (the shape
produced by `amountDigits`): at most one dot and at least one digit; None
models the ValueError. -/
def pyFloatFiltered (cs : List Char) : Option Rat :=
  let intPart := cs.takeWhile Char.isDigit
  match cs.drop intPart.length with
  | [] => if intPart.isEmpty then none else some (digitsToNat intPart : Rat)
  | '.' :: frac =>
    if frac.all Char.isDigit && !(intPart.isEmpty && frac.isEmpty) then
      some ((digitsToNat intPart : Rat) + (digitsToNat frac : Rat) / ((10 : Rat) ^ frac.length))
    else none
  | _ => none

/-- The generic reply produced by `process_message`'s `except` block
(whatsapp_adapter.py line 189). -/
def genericErrorResponse : Response :=
  { status := "error",
    message := "Desculpe, ocorreu um erro ao processar sua mensagem. Por favor, tente novamente." }

/-- The fallthrough reply of `_handle_confirmation_flow` (lines 358-361). -/
def confirmationMismatchResponse : Response :=
  { status := "error",
    message := "Não consegui processar sua resposta. Por favor, tente fazer sua solicitação novamente." }

/-- The adapter's call `self.nlp_usecases.process_command_with_entities(...)`
(whatsapp_adapter.py lines 250, 282, 305, 337).  `NLPUseCases` has no such
attribute — the function is defined at module level in `nlp_usecases.py`
(line 930) — so the lookup raises AttributeError before anything runs. -/
def callProcessCommandWithEntities (_command : String) (_entities : Entities) :
    Except PyErr Response :=
  .error .attributeError

/-- Result of `_handle_confirmation_flow` together with its session side
effects: the returned-or-raised value, whether the pending confirmation
context was cleared (`update_session(phone, {"context": {}})`), and the final
content of the partial-entities dict. -/
structure HCFOut where
  result : Except PyErr Response
  contextCleared : Bool
  finalEntities : Entities
  deriving Repr

/-- `WhatsAppAdapter._handle_confirmation_flow` (lines 199-361) for a pending
`confirmation_type == "nlp"` context (the only type the adapter stores):

* with `suggested_categories` pending: an `int(...)`-parsable reply selects
  the 1-based category if in range (out of range re-prompts, keeping the
  context); otherwise a case-insensitive name match selects the suggested
  name; otherwise the stripped reply itself becomes the category.  In the
  three selecting branches the context is cleared and
  `process_command_with_entities` is invoked (which raises, see
  `callProcessCommandWithEntities`);
* else, with `amount` missing: a float-parsable cleaned reply merges the
  amount, clears the context, and invokes the same call; an unparsable reply
  re-prompts keeping the context;
* else: the context is cleared and the mismatch reply is returned. -/
def handleConfirmationFlow (pend : Entities) (messageText : String) : HCFOut :=
  match pend.suggestedCategories with
  | some categories =>
    let response := pyStrip messageText
    (match pyIntParse response with
     | some n =>
       let index : Int := n - 1
       if 0 ≤ index && index < (categories.length : Int) then
         let selected := categories.getD index.toNat ""
         let updated := { pend with category := some selected, suggestedCategories := none }
         { result := callProcessCommandWithEntities "" updated,
           contextCleared := true, finalEntities := updated }
       else
         let msg := "Por favor, selecione um número entre 1 e " ++
           toString categories.length ++ "."
         { result := .ok { status := "confirmation", message := msg },
           contextCleared := false, finalEntities := pend }
     | none =>
       match categories.find? (fun cat => strLower response == strLower cat) with
       | some cat =>
         let updated := { pend with category := some cat, suggestedCategories := none }
         { result := callProcessCommandWithEntities "" updated,
           contextCleared := true, finalEntities := updated }
       | none =>
         let updated := { pend with category := some response, suggestedCategories := none }
         { result := callProcessCommandWithEntities "" updated,
           contextCleared := true, finalEntities := updated })
  | none =>
    match pend.amount with
    | none =>
      (match pyFloatFiltered (amountDigits messageText) with
       | some v =>
         let updated := { pend with amount := some v }
         { result := callProcessCommandWithEntities "" updated,
           contextCleared := true, finalEntities := updated }
       | none =>
         let msg := "Por favor, informe um valor numérico válido (ex: 50.00)."
         { result := .ok { status := "confirmation", message := msg },
           contextCleared := false, finalEntities := pend })
    | some _ =>
      { result := .ok confirmationMismatchResponse,
        contextCleared := true, finalEntities := pend }

/-- `process_message`'s handling of a reply while a confirmation is pending
(lines 89-95 under the `try` of lines 60-197): the flow's response, or the
generic error reply when the flow raised. -/
def processConfirmReply (pend : Entities) (messageText : String) :
    Response × Bool × Entities :=
  let out := handleConfirmationFlow pend messageText
  match out.result with
  | .ok r => (r, out.contextCleared, out.finalEntities)
  | .error _ => (genericErrorResponse, out.contextCleared, out.finalEntities)

/-- `_determine_intent_from_entities` (nlp_usecases.py lines 959-990; a
module-level function that the adapter can never actually reach, see above):
`updateFieldPresent` models `any(key.startswith("update_") for key in
entities)`. -/
def determineIntentFromEntities (e : Entities) : String :=
  if e.amount.isSome then
    if e.typ == some "income" then "ADD_INCOME"
    else if e.installmentInfo.isSome || e.totalInstallments.isSome then "ADD_INSTALLMENT"
    else if e.recurrence.isSome || e.frequency.isSome then "ADD_RECURRING"
    else "ADD_EXPENSE"
  else if e.startDate.isSome && e.endDate.isSome then "LIST_TRANSACTIONS"
  else if e.transactionId.isSome then
    (if e.updateFieldPresent then "UPDATE_TRANSACTION" else "DELETE_TRANSACTION")
  else "ADD_EXPENSE"

/-- The five categories the improved recognizer suggests for an expense
(the first five keys of `category_synonyms["pt-BR"]`, lines 101-113). -/
def cats5 : List String :=
  ["Alimentação", "Transporte", "Moradia", "Saúde", "Educação"]

/-- A pending context in which the amount is known and a category
clarification with `cats5` is awaited. -/
def pendCats5 : Entities := { amount := some 50, suggestedCategories := some cats5 }

/-- A pending context in which the category is known and the amount is
awaited. -/
def pendAmount : Entities := { category := some "Alimentação" }

/-! ## `src/infrastructure/whatsapp/thread_manager.py` — the sequencer

`asyncio` runs tasks cooperatively on one loop: control changes hands only at
suspension points.  On an unbounded `asyncio.Queue`, `put` and `get` on a
non-empty queue return without suspending, so in `process_message` the
`queue.put(...)` and the `if queue.qsize() == 1: create_task(_process_queue)`
test form one atomic segment, and in `_process_queue` the dequeue and the
start of `await task` form one atomic segment; the awaited processor then
suspends on its I/O for an arbitrary time.  The model below has one state per
conversation (the claim's per-conversation guarantee is what is at stake):
messages are numbered in arrival order, `drainers` counts the live
`_process_queue` tasks, `running` the messages currently inside `await task`,
and `done` the order in which processors returned (side effects commit). -/

/-- Scheduling state of one conversation's queue. -/
structure TMState where
  queue : List Nat
  drainers : Nat
  running : List Nat
  done : List Nat
  deriving Repr, DecidableEq

/-- One atomic segment of `WhatsAppThreadManager` (thread_manager.py):

* `arrive`: `process_message` lines 62-85 — enqueue the task and spawn a new
  `_process_queue` drainer exactly when the queue size right after the put
  is 1 (no suspension point separates the two);
* `startTask`: `_process_queue` lines 99-105 — an idle drainer sees a
  non-empty queue, dequeues the head and begins `await task` (each drainer
  awaits at most one task at a time);
* `finishTask`: the awaited processor returns after its arbitrary I/O
  latency; its side effects commit at this point. -/
inductive TMStep : TMState → TMState → Prop where
  | arrive (s : TMState) (m : Nat) :
      TMStep s { s with queue := s.queue ++ [m],
                        drainers := if s.queue.length + 1 == 1 then s.drainers + 1
                                    else s.drainers }
  | startTask (s : TMState) (m : Nat) (rest : List Nat) :
      s.queue = m :: rest → s.running.length < s.drainers →
      TMStep s { s with queue := rest, running := s.running ++ [m] }
  | finishTask (s : TMState) (m : Nat) :
      m ∈ s.running →
      TMStep s { s with running := s.running.erase m, done := s.done ++ [m] }

/-- The initial state: fresh conversation, no queue, no drainer. -/
def tmInit : TMState := { queue := [], drainers := 0, running := [], done := [] }

/-- Reachability under legal cooperative interleavings. -/
def tmReachable (s : TMState) : Prop := Relation.ReflTransGen TMStep tmInit s

end GestorFin

namespace GestorFin

/-- `List.find?` only depends on the predicate's values on the list. -/
theorem find?_congrOn {α : Type} {p q : α → Bool} :
    ∀ {l : List α}, (∀ a ∈ l, p a = q a) → l.find? p = l.find? q := by
  intro l
  induction l with
  | nil => intro _; rfl
  | cons a l ih =>
    intro h
    have ha := h a (List.mem_cons_self a l)
    simp only [List.find?, ha]
    cases hq : q a with
    | true => rfl
    | false => exact ih (fun b hb => h b (List.mem_cons_of_mem a hb))

/-- Python's first-maximum `max` fold computes exactly the first element of
the list that is greater than or equal to all elements. -/
theorem firstMax_foldl :
    ∀ (xs : List (String × Nat)) (x : String × Nat),
      (x :: xs).find? (fun p => (x :: xs).all (fun q => decide (q.2 ≤ p.2)))
        = some (xs.foldl (fun b q => if b.2 < q.2 then q else b) x) := by
  intro xs
  induction xs with
  | nil =>
    intro x
    simp [List.find?]
  | cons y ys ih =>
    intro x
    rw [List.foldl_cons]
    by_cases hxy : x.2 < y.2
    · simp only [if_pos hxy]
      have hx : ((x :: y :: ys).all (fun q => decide (q.2 ≤ x.2))) = false := by
        simp only [List.all_cons, Bool.and_eq_false_iff]
        right; left
        simpa using Nat.not_le.mpr hxy
      rw [List.find?, hx, ← ih y]
      apply find?_congrOn
      intro a _
      simp only [List.all_cons]
      cases hax : decide (x.2 ≤ a.2) with
      | true => simp
      | false =>
        have hya : ¬ y.2 ≤ a.2 := by
          intro hy
          exact absurd (Nat.le_trans (Nat.le_of_lt hxy) hy) (by simpa using hax)
        simp [hya]
    · simp only [if_neg hxy]
      have hyx : y.2 ≤ x.2 := Nat.le_of_not_lt hxy
      rw [← ih x]
      have hx_eq : ((x :: y :: ys).all fun q => decide (q.2 ≤ x.2))
          = ((x :: ys).all fun q => decide (q.2 ≤ x.2)) := by
        simp [List.all_cons, hyx]
      cases hpx : ((x :: ys).all fun q => decide (q.2 ≤ x.2)) with
      | true =>
        have e1 : List.find? (fun p => (x :: y :: ys).all fun q => decide (q.2 ≤ p.2))
            (x :: y :: ys) = some x :=
          List.find?_cons_of_pos _ (hx_eq.trans hpx)
        have e2 : List.find? (fun p => (x :: ys).all fun q => decide (q.2 ≤ p.2))
            (x :: ys) = some x :=
          List.find?_cons_of_pos _ hpx
        rw [e1, e2]
      | false =>
        have hLy : ((x :: y :: ys).all fun q => decide (q.2 ≤ y.2)) = false := by
          rcases Nat.lt_or_ge y.2 x.2 with hlt | hge
          · simp only [List.all_cons, Bool.and_eq_false_iff]
            left
            simpa using Nat.not_le.mpr hlt
          · have hxy2 : x.2 = y.2 := Nat.le_antisymm hge hyx
            simp only [List.all_cons, Bool.and_eq_false_iff] at hpx ⊢
            rcases hpx with h1 | h2
            · simp at h1
            · right; right
              simpa [hxy2] using h2
        have e1 : List.find? (fun p => (x :: y :: ys).all fun q => decide (q.2 ≤ p.2))
            (x :: y :: ys)
            = List.find? (fun p => (x :: y :: ys).all fun q => decide (q.2 ≤ p.2)) (y :: ys) :=
          List.find?_cons_of_neg _ (by simp [hx_eq, hpx])
        have e2 : List.find? (fun p => (x :: y :: ys).all fun q => decide (q.2 ≤ p.2)) (y :: ys)
            = List.find? (fun p => (x :: y :: ys).all fun q => decide (q.2 ≤ p.2)) ys :=
          List.find?_cons_of_neg _ (by simp [hLy])
        have e3 : List.find? (fun p => (x :: ys).all fun q => decide (q.2 ≤ p.2)) (x :: ys)
            = List.find? (fun p => (x :: ys).all fun q => decide (q.2 ≤ p.2)) ys :=
          List.find?_cons_of_neg _ (by simp [hpx])
        rw [e1, e2, e3]
        apply find?_congrOn
        intro a _
        simp only [List.all_cons]
        cases hax : decide (x.2 ≤ a.2) with
        | true =>
          have hya : y.2 ≤ a.2 := Nat.le_trans hyx (by simpa using hax)
          simp [hya]
        | false => simp

/-- `pyMaxIntent` agrees with the claim's selection rule on every score
list. -/
theorem pyMaxIntent_eq_spec (l : List (String × Nat)) :
    pyMaxIntent l = ((specFirstMax l).map Prod.fst).getD "UNKNOWN" := by
  cases l with
  | nil => rfl
  | cons x xs =>
    rw [specFirstMax, firstMax_foldl xs x]
    rfl

/-- C5: the classifier is a pure function of the text and the static pattern
table (it is a Lean function of `text` by construction); it equals, on every
input, the claim-side classifier: per-intent `findall` match counts, the
strictly-highest score (first-declared intent on ties, by
`pyMaxIntent_eq_spec`), the fixed-priority zero-score heuristics, and UNKNOWN
only when nothing matches. -/
theorem C5_classifier_matches_claim (text : String) :
    identifyIntent text = specClassify text := by
  simp only [identifyIntent, specClassify, pyMaxIntent_eq_spec]
  rfl

/-- C1: the claim states that `get_next_occurrence` never raises for supported
frequencies and returns None or a date strictly after the reference.  The code
refutes this: every monthly evaluation raises AttributeError
(`datetime.timedelta` is looked up on the imported `datetime` class), and a
daily recurrence raises ValueError when the reference date is the last day of
a month (`replace(day=day+1)`).  This theorem evaluates the embedded code at
both failing inputs. -/
theorem C1_getNextOccurrence_raises :
    getNextOccurrence recMonthlyJan31 (pyDT 2025 2 10 12 0 0 0)
      = .error .attributeError
  ∧ getNextOccurrence recDailyJan1 (pyDT 2025 1 31 10 0 0 0)
      = .error (.valueError "day is out of range for month") := by
  constructor <;> rfl

/-- C3: the claim states that a monthly recurrence with `day_of_month = 31`
clamps its February occurrence to Feb 28 (29 in leap years).  The code instead
raises AttributeError on every monthly-or-coarser evaluation, because the
clamping helper `_get_last_day_of_month` evaluates `datetime.timedelta` on the
imported `datetime` class.  This theorem evaluates the embedded code at the
claim's own scenario (monthly starting Jan 31, reference Jan 31). -/
theorem C3_monthly_clamp_crashes :
    getNextOccurrence recMonthlyJan31 (pyDT 2025 1 31 23 0 0 0)
      = .error .attributeError := by
  rfl

/-- C2: the claim states that for `totalInstallments = N ≥ 1` the expansion
produces exactly N entries with `currentInstallment` 1..N.  The code refutes
this for every `N ≥ 2`: after appending the first installment,
`_create_remaining_installments` evaluates `_get_last_day_of_month`, whose
body evaluates `datetime.timedelta` on the imported `datetime` class and
raises AttributeError, so only one entry exists and the exception propagates.
This theorem evaluates the embedded code at `N = 2`. -/
theorem C2_installment_expansion_crashes :
    (addInstallmentTransaction envAllCats store0 "expense" 100 "Alimentação"
        "Notebook" 2 (some (pyDT 2025 1 31 10 0 0 0)) none none).1
      = .error .attributeError
  ∧ ((addInstallmentTransaction envAllCats store0 "expense" 100 "Alimentação"
        "Notebook" 2 (some (pyDT 2025 1 31 10 0 0 0)) none none).2).transactions.map
        Transaction.description = ["Notebook (1/2)"] := by
  constructor <;> rfl

/-- C8: an add-installment command whose resolved installment count is < 1 is
rejected by `add_installment_transaction`'s guard before any repository
effect; `_handle_add_installment` catches the ValueError and returns a
`status = "error"` result with the explanatory message, leaving the store
unchanged. -/
theorem C8_installment_count_rejected (env : Env) (st : Store) (e : Entities)
    (info : InstallmentArg) (hinfo : e.installmentInfo = some info)
    (htot : info.total.getD 2 < 1) :
    handleAddInstallment env st e =
      ({ status := "error",
         message := "O número total de parcelas deve ser pelo menos 1" }, st) := by
  simp only [handleAddInstallment, addInstallmentTransaction, hinfo, Option.getD_some]
  rw [if_pos htot]
  rfl

/-- C4: the claim states that the Normalizer (`_preprocess_text`) is
idempotent.  Two independent defects in the code refute this, already setting
aside that `_preprocess_text`'s body is mis-indented in the source and the
module cannot even be imported (IndentationError):

* the `\b(\d+),(\d+) -> \1.\2` rule rewrites non-overlapping pairs only, so
  "1,2,3" becomes "1.2,3" after one pass and "1.2.3" after a second;
* the phrase table maps a text containing "meus gastos" to "listar gastos",
  whose word "gastos" is rewritten to "despesas" by the misspelling table on
  the next pass, giving "listar despesas".

This theorem evaluates the embedded pipeline at both inputs. -/
theorem C4_preprocess_not_idempotent :
    preprocessImproved "1,2,3" = "1.2,3"
  ∧ preprocessImproved (preprocessImproved "1,2,3") = "1.2.3"
  ∧ preprocessImproved "meus gastos!" = "listar gastos"
  ∧ preprocessImproved (preprocessImproved "meus gastos!") = "listar despesas" := by
  refine ⟨?_, ?_, ?_, ?_⟩ <;> rfl

/-- C6: the claim states that after an ADD_EXPENSE message lacking an amount,
a bare numeric reply is merged and the command resolves without re-asking for
an already-present category.  The code merges the amount and clears the
context, but then calls `self.nlp_usecases.process_command_with_entities`,
which raises AttributeError (the function sits at module level, outside
`class NLPUseCases`), so the user gets the generic error reply and no command
ever resolves.  The second conjunct shows the orphaned
`_determine_intent_from_entities` would indeed have picked ADD_EXPENSE for
the merged entities, in line with the claim's intent. -/
theorem C6_confirmation_reply_errors :
    processConfirmReply pendAmount "50"
      = (genericErrorResponse, true, { pendAmount with amount := some 50 })
  ∧ determineIntentFromEntities { pendAmount with amount := some 50 } = "ADD_EXPENSE" := by
  constructor <;> decide

/-- C7: the claim states that a numeric reply `k` (or a case-insensitive
category name) resolves the category and the command completes.  The code
does resolve the category — reply "2" selects the 2nd suggestion and reply
"transporte" selects "Transporte" — and clears the pending context, but the
command never completes: the dispatch call raises AttributeError
(module-level `process_command_with_entities`) and the user gets the generic
error reply. -/
theorem C7_category_selection_never_completes :
    processConfirmReply pendCats5 "2"
      = (genericErrorResponse, true,
         { pendCats5 with category := some "Transporte", suggestedCategories := none })
  ∧ processConfirmReply pendCats5 "transporte"
      = (genericErrorResponse, true,
         { pendCats5 with category := some "Transporte", suggestedCategories := none }) := by
  constructor <;> decide

/-- C10, counterexample: the claim says any reply that is neither a valid
1-based index nor a suggested name is taken verbatim as the category and the
command completes.  At reply "7" (with 5 suggestions) the code instead
re-prompts ("Por favor, selecione um número entre 1 e 5."), keeps the
context, and sets no category; and at reply "Presentes" the command does not
complete — the result is the generic error reply. -/
theorem C10_claim_false_at_numeric_reply :
    (processConfirmReply pendCats5 "7").1
      = { status := "confirmation", message := "Por favor, selecione um número entre 1 e 5." }
  ∧ (processConfirmReply pendCats5 "7").2.1 = false
  ∧ (processConfirmReply pendCats5 "7").2.2.category = none
  ∧ (processConfirmReply pendCats5 "Presentes").1 = genericErrorResponse := by
  refine ⟨?_, ?_, ?_, ?_⟩ <;> decide

/-- C10, amended: while a category clarification is pending, a reply that
does not parse as a Python int and matches no suggested name
case-insensitively is not re-prompted: its stripped text becomes the
category, merged into the pending entities, and the pending context is
cleared — after which the dispatch fails with the generic error reply
(`process_command_with_entities` being absent from `NLPUseCases`), so the
command is not completed. -/
theorem C10_nonint_reply_taken_as_category (pend : Entities) (cats : List String)
    (reply : String) (hsug : pend.suggestedCategories = some cats)
    (hint : pyIntParse (pyStrip reply) = none)
    (hname : cats.find? (fun cat => strLower (pyStrip reply) == strLower cat) = none) :
    processConfirmReply pend reply
      = (genericErrorResponse, true,
         { pend with category := some (pyStrip reply), suggestedCategories := none }) := by
  simp only [processConfirmReply, handleConfirmationFlow, hsug, hint, hname,
    callProcessCommandWithEntities]

/-- Witness for the amended C10 at the concrete reply "Presentes". -/
theorem C10_nonint_reply_taken_as_category_witness :
    pyIntParse (pyStrip "Presentes") = none
  ∧ cats5.find? (fun cat => strLower (pyStrip "Presentes") == strLower cat) = none
  ∧ processConfirmReply pendCats5 "Presentes"
      = (genericErrorResponse, true,
         { pendCats5 with category := some (pyStrip "Presentes"),
                          suggestedCategories := none }) :=
  ⟨by decide, by decide, C10_nonint_reply_taken_as_category pendCats5 cats5 "Presentes" rfl (by decide) (by decide)⟩

/-- C9: the claim states that exactly one worker drains a conversation's
queue at a time and messages commit in strict arrival order.  The code's
spawn test `if queue.qsize() == 1` races with a drainer that has already
dequeued the only task (queue size is back to 0 while the first message is
still being awaited), so the next arrival spawns a second concurrent drainer.
This theorem exhibits a legal interleaving reaching a state with two live
drainers awaiting messages 1 and 2 of the same conversation simultaneously,
and a continuation in which message 2's side effects commit before message
1's. -/
theorem C9_ordering_violated :
    ∃ s t : TMState, tmReachable s ∧ tmReachable t
      ∧ s.drainers = 2 ∧ s.running = [1, 2]
      ∧ t.done = [2, 1] := by
  have h1 : TMStep { queue := [], drainers := 0, running := [], done := [] }
      { queue := [1], drainers := 1, running := [], done := [] } :=
    TMStep.arrive _ 1
  have h2 : TMStep { queue := [1], drainers := 1, running := [], done := [] }
      { queue := [], drainers := 1, running := [1], done := [] } :=
    TMStep.startTask _ 1 [] rfl (by decide)
  have h3 : TMStep { queue := [], drainers := 1, running := [1], done := [] }
      { queue := [2], drainers := 2, running := [1], done := [] } :=
    TMStep.arrive _ 2
  have h4 : TMStep { queue := [2], drainers := 2, running := [1], done := [] }
      { queue := [], drainers := 2, running := [1, 2], done := [] } :=
    TMStep.startTask _ 2 [] rfl (by decide)
  have h5 : TMStep { queue := [], drainers := 2, running := [1, 2], done := [] }
      { queue := [], drainers := 2, running := [1], done := [2] } :=
    TMStep.finishTask _ 2 (by decide)
  have h6 : TMStep { queue := [], drainers := 2, running := [1], done := [2] }
      { queue := [], drainers := 2, running := [], done := [2, 1] } :=
    TMStep.finishTask _ 1 (by decide)
  have hs : tmReachable { queue := [], drainers := 2, running := [1, 2], done := [] } :=
    Relation.ReflTransGen.head h1 (Relation.ReflTransGen.head h2
      (Relation.ReflTransGen.head h3 (Relation.ReflTransGen.single h4)))
  have ht : tmReachable { queue := [], drainers := 2, running := [], done := [2, 1] } :=
    Relation.ReflTransGen.tail (Relation.ReflTransGen.tail hs h5) h6
  exact ⟨_, _, hs, ht, rfl, rfl, rfl⟩

/-- Witness for C8 at the concrete installment count 0. -/
theorem C8_installment_count_rejected_witness :
    ({ total := some 0, current := some 1, referenceId := none } : InstallmentArg).total.getD 2 < 1
  ∧ handleAddInstallment envAllCats store0
      { installmentInfo := some { total := some 0, current := some 1, referenceId := none } } =
      ({ status := "error",
         message := "O número total de parcelas deve ser pelo menos 1" }, store0) :=
  ⟨by decide, C8_installment_count_rejected envAllCats store0 _ _ rfl (by decide)⟩

end GestorFin
